import Mathlib

/-!
Verification of `src/jobs/sessionExpiry.ts` (daily session-expiry rollover job).

The job has two entry points:
* `runSessionExpiryForDate(ds, dateYYYYMMDD)` — manual trigger; on error it
  logs a warning and re-throws.
* `scheduleSessionExpiry(ds)` — arms a timer for the next local midnight in
  the America/Sao_Paulo zone; on fire it runs an inner `runForDate` (which
  logs and swallows errors) and re-arms.

We embed the data store as explicit lists of rows, the rollover bodies as
pure state transformers with an explicit fault-injection record standing for
the possible data-store failures, and the timer loop as a small transition
system.  Timestamps are integers counting milliseconds since the Unix epoch.
America/Sao_Paulo is modelled as a fixed UTC-3 zone (Brazil abolished DST in
2019, so the offset is constant for current dates; the claims under
verification do not depend on historical DST transitions).
-/

namespace SessionExpiry

/-- Modelled from the spec: the `StatusLeito` enum of the `Leito` entity is
not under `src/`; spec §3 describes "a status (enum including vacant,
pending, occupied, maintenance-variants, etc.)" and the job's source names
`StatusLeito.PENDENTE` and mentions `MANUT_*` variants. -/
inductive StatusLeito where
  | VAGO
  | PENDENTE
  | OCUPADO
  | MANUT_LIMPEZA
  | MANUT_REPARO
deriving DecidableEq, Repr

/-- Modelled from the spec: the `StatusSessaoAvaliacao` enum of the
`AvaliacaoSCP` entity is not under `src/`; spec §3 describes "a session
status (enum including released, expired, etc.)" and the job's source names
`StatusSessaoAvaliacao.EXPIRADA` and mentions `LIBERADA`. -/
inductive StatusSessaoAvaliacao where
  | ATIVA
  | LIBERADA
  | EXPIRADA
deriving DecidableEq, Repr

/-- A calendar date; the application's `yyyy-mm-dd` strings correspond
bijectively to these triples, so the exact string match on `dataAplicacao`
is equality of triples. -/
structure Ymd where
  y : Int
  m : Int
  d : Int
deriving DecidableEq, Repr

/-- Modelled from the spec: `Hospital` entity row (referenced by a Unit). -/
structure Hospital where
  id : String
deriving DecidableEq, Repr

/-- Modelled from the spec: `Unidade` (unit) entity row, itself referencing
a Hospital (optional foreign key). -/
structure Unidade where
  id : String
  hospitalId : Option String
deriving DecidableEq, Repr

/-- Modelled from the spec: `Autor` (author/user) entity row; the job reads
its `id` and `nome`. -/
structure Autor where
  id : String
  nome : String
deriving DecidableEq, Repr

/-- Modelled from the spec: `Leito` (bed) entity row; the job reads `id`,
`numero` and `status`, and bulk-updates `status`. -/
structure Leito where
  id : String
  numero : Option String
  status : StatusLeito
deriving DecidableEq, Repr

/-- Modelled from the spec: `AvaliacaoSCP` (assessment) entity row: an
application date, optional foreign keys to bed / unit / author, scoring
fields, and a session status.  The item breakdown `itens` is an opaque
score list. -/
structure AvaliacaoSCP where
  id : String
  dataAplicacao : Ymd
  leitoId : Option String
  unidadeId : Option String
  autorId : Option String
  scp : Option String
  totalPontos : Option Int
  classificacao : Option String
  itens : Option (List Int)
  statusSessao : StatusSessaoAvaliacao
deriving DecidableEq, Repr

/-- `HistoricoOcupacao` (occupancy-history snapshot) row, with exactly the
fields the job writes: a bed reference plus denormalized copies and the
`inicio`/`fim` window (UTC instants in epoch milliseconds). -/
structure HistoricoOcupacao where
  leitoId : String
  unidadeId : Option String
  hospitalId : Option String
  leitoNumero : Option String
  leitoStatus : Option StatusLeito
  scp : Option String
  totalPontos : Option Int
  classificacao : Option String
  itens : Option (List Int)
  autorId : Option String
  autorNome : Option String
  inicio : Int
  fim : Int
deriving DecidableEq, Repr

/-! ## Time model

`DateTime.fromISO(dateYYYYMMDD, { zone: "America/Sao_Paulo" }).startOf("day")`
is local midnight of that calendar date; `.endOf("day")` is the last
millisecond of the day, `23:59:59.999` local; `.toUTC().toJSDate()` converts
to an absolute instant.  We convert a calendar date to its epoch day with
the standard civil-calendar algorithm and add the fixed UTC-3 offset. -/

/-- Days from the civil epoch 1970-01-01 (proleptic Gregorian calendar). -/
def daysFromCivil (y m d : Int) : Int :=
  let yAdj : Int := if m ≤ 2 then y - 1 else y
  let era : Int := (if 0 ≤ yAdj then yAdj else yAdj - 399) / 400
  let yoe : Int := yAdj - era * 400
  let mp : Int := (m + 9) % 12
  let doy : Int := (153 * mp + 2) / 5 + d - 1
  let doe : Int := yoe * 365 + yoe / 4 - yoe / 100 + doy
  era * 146097 + doe - 719468

def ymdToEpochDay (dt : Ymd) : Int :=
  daysFromCivil dt.y dt.m dt.d

def msPerDay : Int := 86400000

/-- América/Sao_Paulo is UTC-3: local midnight is 03:00 UTC. -/
def spOffsetMs : Int := 3 * 60 * 60 * 1000

/-- `DateTime.fromISO(d, { zone: ZONE }).startOf("day").toUTC()`, in epoch
milliseconds: the absolute instant of local midnight of date `dt`. -/
def startOfDayUTC (dt : Ymd) : Int :=
  ymdToEpochDay dt * msPerDay + spOffsetMs

/-- `startLocal.endOf("day").toUTC()`, in epoch milliseconds: luxon's
`endOf("day")` is the last millisecond of the local day, `23:59:59.999`. -/
def endOfDayUTC (dt : Ymd) : Int :=
  startOfDayUTC dt + msPerDay - 1

/-! ## Data store -/

/-- The data store visible to the job: the three collections it reads or
writes plus the reference tables resolved by the eager `relations` of the
fetch. -/
structure DB where
  avals : List AvaliacaoSCP
  leitos : List Leito
  unidades : List Unidade
  hospitais : List Hospital
  autores : List Autor
  historicos : List HistoricoOcupacao
deriving DecidableEq, Repr

/-- The data-store failures the job can observe, one per awaited operation
site: the fetch, a snapshot save, and the two bulk updates. -/
inductive DBError where
  | fetchFailed
  | saveFailed
  | leitoUpdateFailed
  | avalUpdateFailed
deriving DecidableEq, Repr

/-- Fault injection: which data-store operation (if any) throws.
`saveFailsAt = some k` makes the save of the k-th snapshot (0-based) throw,
leaving the earlier saves persisted. -/
structure Faults where
  fetchFails : Bool
  saveFailsAt : Option Nat
  leitoUpdateFails : Bool
  avalUpdateFails : Bool
deriving DecidableEq, Repr

/-- The fault-free data store: every operation succeeds. -/
def noFaults : Faults :=
  { fetchFails := false, saveFailsAt := none
    leitoUpdateFails := false, avalUpdateFails := false }

/-- A unit with its hospital relation resolved
(`relations: ["unidade", "unidade.hospital"]`). -/
structure UnidadeResolved where
  id : String
  hospital : Option Hospital
deriving DecidableEq, Repr

/-- An assessment as returned by
`avalRepo.find({ where: { dataAplicacao }, relations: ["leito", "unidade",
"unidade.hospital", "autor"] })`: the row with its associations resolved
against the store. -/
structure AvalResolved where
  aval : AvaliacaoSCP
  leito : Option Leito
  unidade : Option UnidadeResolved
  autor : Option Autor
deriving DecidableEq, Repr

def resolveUnidade (db : DB) (uid : String) : Option UnidadeResolved :=
  (db.unidades.find? (fun u => u.id = uid)).map (fun u =>
    { id := u.id
      hospital := u.hospitalId.bind
        (fun hid => db.hospitais.find? (fun h => h.id = hid)) })

def resolveAval (db : DB) (a : AvaliacaoSCP) : AvalResolved :=
  { aval := a
    leito := a.leitoId.bind (fun lid => db.leitos.find? (fun l => l.id = lid))
    unidade := a.unidadeId.bind (resolveUnidade db)
    autor := a.autorId.bind (fun aid => db.autores.find? (fun x => x.id = aid)) }

/-- `avalRepo.find({ where: { dataAplicacao: dateYYYYMMDD }, relations: [...] })`:
exact date match, associations eagerly resolved. -/
def findAvalsByDate (db : DB) (d : Ymd) : List AvalResolved :=
  (db.avals.filter (fun a => a.dataAplicacao = d)).map (resolveAval db)

/-- Row effect of `UPDATE Leito SET status = StatusLeito.PENDENTE` with no
`WHERE` clause: every bed row gets status `PENDENTE`. -/
def resetPendente (l : Leito) : Leito :=
  { l with status := StatusLeito.PENDENTE }

/-- Row effect of `UPDATE AvaliacaoSCP SET statusSessao = EXPIRADA WHERE
dataAplicacao = :d`: rows matching the date get status `EXPIRADA`, all
other rows are untouched. -/
def expireOnDate (d : Ymd) (a : AvaliacaoSCP) : AvaliacaoSCP :=
  if a.dataAplicacao = d then
    { a with statusSessao := StatusSessaoAvaliacao.EXPIRADA }
  else a

/-! ## Manual entry point `runSessionExpiryForDate` (source lines 19-93) -/

/-- The snapshot built for one fetched assessment `a` with `a.leito = l`
(source lines 46-63): denormalized copies with `?? null` / conditional
fall-backs, and the full-local-day window in UTC. -/
def mkHistorico (d : Ymd) (v : AvalResolved) (l : Leito) : HistoricoOcupacao :=
  { leitoId := l.id
    unidadeId := v.unidade.map (fun u => u.id)
    hospitalId := (v.unidade.bind (fun u => u.hospital)).map (fun h => h.id)
    leitoNumero := l.numero
    leitoStatus := some l.status
    scp := v.aval.scp
    totalPontos := v.aval.totalPontos
    classificacao := v.aval.classificacao
    itens := v.aval.itens
    autorId := v.autor.map (fun x => x.id)
    autorNome := v.autor.map (fun x => x.nome)
    inicio := startOfDayUTC d
    fim := endOfDayUTC d }

/-- The `for (const a of avals)` loop of lines 37-66: skip assessments with
no resolved bed, push one snapshot for each of the others.  (The loop also
accumulates `leitoIdsToReset`, a set that the rest of the function never
reads; that dead accumulator is not modelled.) -/
def buildHistoricos (d : Ymd) : List AvalResolved → List HistoricoOcupacao
  | [] => []
  | v :: rest =>
    match v.leito with
    | none => buildHistoricos d rest
    | some l => mkHistorico d v l :: buildHistoricos d rest

/-- The save loop of lines 68-74: `await histRepo.save(ent)` one row at a
time.  `k` is the index of the next snapshot; a fault at index `k` throws
with the earlier saves already persisted. -/
def saveHistoricos (f : Faults) (k : Nat) :
    List HistoricoOcupacao → DB → DB × Option DBError
  | [], db => (db, none)
  | h :: rest, db =>
    if f.saveFailsAt = some k then (db, some DBError.saveFailed)
    else saveHistoricos f (k + 1) rest
      { db with historicos := db.historicos ++ [h] }

/-- The `try` body of `runSessionExpiryForDate` (lines 24-88): fetch, build
and save snapshots, then the two bulk updates — `UPDATE leito SET status =
PENDENTE` (unfiltered, lines 77-81) and `UPDATE avaliacao SET statusSessao =
EXPIRADA WHERE dataAplicacao = :d` (lines 83-88).  Returns the store after
the writes that ran, and the error (if any) that escaped the body. -/
def manualAttempt (f : Faults) (d : Ymd) (db : DB) : DB × Option DBError :=
  if f.fetchFails then (db, some DBError.fetchFailed)
  else
    let avals := findAvalsByDate db d
    let historicos := buildHistoricos d avals
    match saveHistoricos f 0 historicos db with
    | (db1, some e) => (db1, some e)
    | (db1, none) =>
      if f.leitoUpdateFails then (db1, some DBError.leitoUpdateFailed)
      else
        let db2 := { db1 with leitos := db1.leitos.map resetPendente }
        if f.avalUpdateFails then (db2, some DBError.avalUpdateFailed)
        else
          ({ db2 with avals := db2.avals.map (expireOnDate d) }, none)

/-- Observable outcome of one entry-point invocation: the store left behind,
how many `console.warn` lines were emitted, and the error thrown to the
caller (if any). -/
structure RunResult where
  db : DB
  warnings : Nat
  thrown : Option DBError
deriving DecidableEq, Repr

/-- `runSessionExpiryForDate` (lines 19-93): on any error the `catch` logs a
warning and re-throws (lines 89-92). -/
def runSessionExpiryForDate (f : Faults) (d : Ymd) (db : DB) : RunResult :=
  match manualAttempt f d db with
  | (db1, none) => { db := db1, warnings := 0, thrown := none }
  | (db1, some e) => { db := db1, warnings := 1, thrown := some e }

/-! ## Scheduled entry point: `scheduleSessionExpiry`'s inner `runForDate`
(source lines 99-177).  The body duplicates the manual one, so it is
translated separately here and the equivalence is proved, not assumed. -/

/-- The snapshot built in the scheduled body (source lines 125-145). -/
def mkHistoricoSched (d : Ymd) (v : AvalResolved) (l : Leito) : HistoricoOcupacao :=
  { leitoId := l.id
    unidadeId := v.unidade.map (fun u => u.id)
    hospitalId := (v.unidade.bind (fun u => u.hospital)).map (fun h => h.id)
    leitoNumero := l.numero
    leitoStatus := some l.status
    scp := v.aval.scp
    totalPontos := v.aval.totalPontos
    classificacao := v.aval.classificacao
    itens := v.aval.itens
    autorId := v.autor.map (fun x => x.id)
    autorNome := v.autor.map (fun x => x.nome)
    inicio := startOfDayUTC d
    fim := endOfDayUTC d }

/-- The `for (const a of avals)` loop of lines 115-148 (scheduled body). -/
def buildHistoricosSched (d : Ymd) : List AvalResolved → List HistoricoOcupacao
  | [] => []
  | v :: rest =>
    match v.leito with
    | none => buildHistoricosSched d rest
    | some l => mkHistoricoSched d v l :: buildHistoricosSched d rest

/-- The save loop of lines 150-158 (scheduled body). -/
def saveHistoricosSched (f : Faults) (k : Nat) :
    List HistoricoOcupacao → DB → DB × Option DBError
  | [], db => (db, none)
  | h :: rest, db =>
    if f.saveFailsAt = some k then (db, some DBError.saveFailed)
    else saveHistoricosSched f (k + 1) rest
      { db with historicos := db.historicos ++ [h] }

/-- The `try` body of the scheduled `runForDate` (lines 100-173). -/
def schedAttempt (f : Faults) (d : Ymd) (db : DB) : DB × Option DBError :=
  if f.fetchFails then (db, some DBError.fetchFailed)
  else
    let avals := findAvalsByDate db d
    let historicos := buildHistoricosSched d avals
    match saveHistoricosSched f 0 historicos db with
    | (db1, some e) => (db1, some e)
    | (db1, none) =>
      if f.leitoUpdateFails then (db1, some DBError.leitoUpdateFailed)
      else
        let db2 := { db1 with leitos := db1.leitos.map resetPendente }
        if f.avalUpdateFails then (db2, some DBError.avalUpdateFailed)
        else
          ({ db2 with avals := db2.avals.map (expireOnDate d) }, none)

/-- The scheduled `runForDate` (lines 99-177): its `catch` logs a warning
and swallows the error (lines 174-176), so nothing is ever thrown out of
the scheduling loop. -/
def schedRunForDate (f : Faults) (d : Ymd) (db : DB) : RunResult :=
  match schedAttempt f d db with
  | (db1, none) => { db := db1, warnings := 0, thrown := none }
  | (db1, some _) => { db := db1, warnings := 1, thrown := none }

/-! ## Timer loop of `scheduleSessionExpiry` (source lines 180-204)

The JS timer machinery is modelled as a transition system: `setTimeout`
returns a fresh handle; `clearTimeout h` cancels the timer `h` only if it
is still pending (a fired or cleared handle is a no-op).  The delay
computation (`nextMidnight - now`) does not affect which timers exist or
fire, so it is abstracted away; what matters for cancellation is which
handle is armed. -/

/-- Timer-loop state: the handle of the currently armed timeout (if any),
the next fresh handle `setTimeout` would return, and how many times the
midnight callback has run `runForDate`. -/
structure SchedState where
  armed : Option Nat
  nextId : Nat
  fired : Nat
deriving DecidableEq, Repr

/-- `scheduleSessionExpiry` calls `scheduleNext()` once (line 200), arming
the first timer; its handle is the one captured by the returned closure. -/
def schedStart : SchedState := { armed := some 0, nextId := 1, fired := 0 }

/-- `firstHandle` (line 200): the handle of the very first armed timer. -/
def firstHandle : Nat := 0

/-- The armed timer fires (callback of lines 185-194): `runForDate` runs,
then `scheduleNext()` re-arms a fresh timer.  If no timer is pending
(it was cleared), nothing happens. -/
def fireStep (s : SchedState) : SchedState :=
  match s.armed with
  | none => s
  | some _ =>
    { armed := some s.nextId, nextId := s.nextId + 1, fired := s.fired + 1 }

/-- The returned cancellation closure (lines 202-204):
`clearTimeout(firstHandle)`.  It cancels the pending timer only when that
pending timer is the first handle; otherwise it is a no-op. -/
def cancelStep (s : SchedState) : SchedState :=
  if s.armed = some firstHandle then { s with armed := none } else s

/-! ## Concrete sample data (used by witnesses and counterexamples) -/

def hosp0 : Hospital := { id := "H1" }

def uni0 : Unidade := { id := "U1", hospitalId := some "H1" }

/-- A unit whose hospital reference is null. -/
def uni1 : Unidade := { id := "U2", hospitalId := none }

def aut0 : Autor := { id := "A1", nome := "Ana" }

def leito0 : Leito := { id := "L1", numero := some "101", status := StatusLeito.OCUPADO }

def leito1 : Leito := { id := "L2", numero := some "102", status := StatusLeito.MANUT_REPARO }

def dia0 : Ymd := { y := 2024, m := 5, d := 10 }

def dia1 : Ymd := { y := 2024, m := 5, d := 11 }

/-- Assessment on `dia0` with bed, unit, hospital, author and full scores. -/
def aval0 : AvaliacaoSCP :=
  { id := "AV1", dataAplicacao := dia0, leitoId := some "L1"
    unidadeId := some "U1", autorId := some "A1", scp := some "fugulin"
    totalPontos := some 12, classificacao := some "minimos"
    itens := some [1, 2, 3], statusSessao := StatusSessaoAvaliacao.LIBERADA }

/-- Assessment on `dia0` with no bed reference. -/
def aval1 : AvaliacaoSCP :=
  { id := "AV2", dataAplicacao := dia0, leitoId := none
    unidadeId := some "U1", autorId := some "A1", scp := some "scp"
    totalPontos := some 5, classificacao := none
    itens := none, statusSessao := StatusSessaoAvaliacao.ATIVA }

/-- Assessment on the other date `dia1`. -/
def aval2 : AvaliacaoSCP :=
  { id := "AV3", dataAplicacao := dia1, leitoId := some "L1"
    unidadeId := none, autorId := none, scp := none
    totalPontos := none, classificacao := none
    itens := none, statusSessao := StatusSessaoAvaliacao.ATIVA }

/-- Assessment on `dia0` with a bed but null unit, author and scores. -/
def avalNulls : AvaliacaoSCP :=
  { id := "AV4", dataAplicacao := dia0, leitoId := some "L2"
    unidadeId := none, autorId := none, scp := none
    totalPontos := none, classificacao := none
    itens := none, statusSessao := StatusSessaoAvaliacao.ATIVA }

/-- Assessment on `dia0` with a bed and a unit whose hospital is null. -/
def avalNoHosp : AvaliacaoSCP :=
  { id := "AV5", dataAplicacao := dia0, leitoId := some "L1"
    unidadeId := some "U2", autorId := none, scp := none
    totalPontos := none, classificacao := none
    itens := none, statusSessao := StatusSessaoAvaliacao.ATIVA }

/-- Sample store exercising all the cases. -/
def db0 : DB :=
  { avals := [aval0, aval1, aval2, avalNulls, avalNoHosp]
    leitos := [leito0, leito1]
    unidades := [uni0, uni1]
    hospitais := [hosp0]
    autores := [aut0]
    historicos := [] }

/-- Faults making only the initial fetch fail. -/
def fetchFault : Faults :=
  { fetchFails := true, saveFailsAt := none
    leitoUpdateFails := false, avalUpdateFails := false }

/-! ## Helper lemmas -/

theorem resetPendente_id (l : Leito) : (resetPendente l).id = l.id := rfl

theorem expireOnDate_dataAplicacao (d : Ymd) (a : AvaliacaoSCP) :
    (expireOnDate d a).dataAplicacao = a.dataAplicacao := by
  unfold expireOnDate
  split <;> rfl

theorem expireOnDate_leitoId (d : Ymd) (a : AvaliacaoSCP) :
    (expireOnDate d a).leitoId = a.leitoId := by
  unfold expireOnDate
  split <;> rfl

theorem buildHistoricos_eq_filterMap (d : Ymd) (vs : List AvalResolved) :
    buildHistoricos d vs = vs.filterMap (fun v => v.leito.map (mkHistorico d v)) := by
  induction vs with
  | nil => rfl
  | cons v rest ih =>
    cases hv : v.leito with
    | none => simp [buildHistoricos, hv, ih]
    | some l => simp [buildHistoricos, hv, ih]

theorem length_buildHistoricos (d : Ymd) (vs : List AvalResolved) :
    (buildHistoricos d vs).length = (vs.filter (fun v => v.leito.isSome)).length := by
  induction vs with
  | nil => rfl
  | cons v rest ih =>
    cases hv : v.leito with
    | none => simp [buildHistoricos, hv, ih]
    | some l => simp [buildHistoricos, hv, ih]

theorem buildHistoricos_mem (d : Ymd) (v : AvalResolved) (l : Leito)
    (hl : v.leito = some l) :
    ∀ vs : List AvalResolved, v ∈ vs → mkHistorico d v l ∈ buildHistoricos d vs := by
  intro vs
  induction vs with
  | nil => intro h; cases h
  | cons w rest ih =>
    intro hv
    rcases List.mem_cons.mp hv with h | h
    · subst h
      simp [buildHistoricos, hl]
    · cases hw : w.leito with
      | none => simpa [buildHistoricos, hw] using ih h
      | some lw =>
        simp only [buildHistoricos, hw]
        exact List.mem_cons_of_mem _ (ih h)

theorem mem_buildHistoricos (d : Ymd) (vs : List AvalResolved) (h : HistoricoOcupacao)
    (hh : h ∈ buildHistoricos d vs) :
    ∃ v l, v ∈ vs ∧ v.leito = some l ∧ h = mkHistorico d v l := by
  rw [buildHistoricos_eq_filterMap] at hh
  rcases List.mem_filterMap.mp hh with ⟨v, hv, hf⟩
  rcases Option.map_eq_some'.mp hf with ⟨l, hl, hm⟩
  exact ⟨v, l, hv, hl, hm.symm⟩

theorem noFaults_fetchFails : noFaults.fetchFails = false := rfl

theorem noFaults_saveFailsAt : noFaults.saveFailsAt = none := rfl

theorem noFaults_leitoUpdateFails : noFaults.leitoUpdateFails = false := rfl

theorem noFaults_avalUpdateFails : noFaults.avalUpdateFails = false := rfl

theorem saveHistoricos_noFaults (hs : List HistoricoOcupacao) :
    ∀ (k : Nat) (db : DB),
      saveHistoricos noFaults k hs db =
        ({ db with historicos := db.historicos ++ hs }, none) := by
  induction hs with
  | nil => intro k db; simp [saveHistoricos]
  | cons h rest ih =>
    intro k db
    simp [saveHistoricos, noFaults_saveFailsAt, ih, List.append_assoc]

theorem manualAttempt_noFaults (d : Ymd) (db : DB) :
    manualAttempt noFaults d db =
      ({ db with
          avals := db.avals.map (expireOnDate d)
          leitos := db.leitos.map resetPendente
          historicos := db.historicos ++ buildHistoricos d (findAvalsByDate db d) },
        none) := by
  simp [manualAttempt, noFaults_fetchFails, noFaults_leitoUpdateFails,
    noFaults_avalUpdateFails, saveHistoricos_noFaults]

theorem run_noFaults (d : Ymd) (db : DB) :
    runSessionExpiryForDate noFaults d db =
      { db := { db with
          avals := db.avals.map (expireOnDate d)
          leitos := db.leitos.map resetPendente
          historicos := db.historicos ++ buildHistoricos d (findAvalsByDate db d) }
        warnings := 0
        thrown := none } := by
  simp [runSessionExpiryForDate, manualAttempt_noFaults]

theorem mkHistoricoSched_eq_mkHistorico (d : Ymd) (v : AvalResolved) (l : Leito) :
    mkHistoricoSched d v l = mkHistorico d v l := rfl

theorem buildHistoricosSched_eq (d : Ymd) (vs : List AvalResolved) :
    buildHistoricosSched d vs = buildHistoricos d vs := by
  induction vs with
  | nil => rfl
  | cons v rest ih =>
    cases hv : v.leito with
    | none => simp [buildHistoricosSched, buildHistoricos, hv, ih]
    | some l =>
      simp [buildHistoricosSched, buildHistoricos, hv, ih,
        mkHistoricoSched_eq_mkHistorico]

theorem saveHistoricosSched_eq (f : Faults) (hs : List HistoricoOcupacao) :
    ∀ (k : Nat) (db : DB),
      saveHistoricosSched f k hs db = saveHistoricos f k hs db := by
  induction hs with
  | nil => intro k db; rfl
  | cons h rest ih =>
    intro k db
    by_cases hk : f.saveFailsAt = some k
    · simp [saveHistoricosSched, saveHistoricos, hk]
    · simp [saveHistoricosSched, saveHistoricos, hk, ih]

theorem schedAttempt_eq_manualAttempt (f : Faults) (d : Ymd) (db : DB) :
    schedAttempt f d db = manualAttempt f d db := by
  simp only [schedAttempt, manualAttempt, buildHistoricosSched_eq,
    saveHistoricosSched_eq]

theorem length_filter_findAvals (db : DB) (d : Ymd) :
    ((findAvalsByDate db d).filter (fun v => v.leito.isSome)).length
      = (db.avals.filter (fun a => a.dataAplicacao = d)).countP
          (fun a => ((resolveAval db a).leito).isSome) := by
  unfold findAvalsByDate
  rw [← List.countP_eq_length_filter, List.countP_map]
  rfl

theorem resolveAval_leito_isSome_run (d : Ymd) (db : DB) (a : AvaliacaoSCP) :
    ((resolveAval (runSessionExpiryForDate noFaults d db).db (expireOnDate d a)).leito).isSome
      = ((resolveAval db a).leito).isSome := by
  rw [run_noFaults]
  unfold resolveAval
  simp only [expireOnDate_leitoId]
  cases hA : a.leitoId with
  | none => rfl
  | some lid =>
    simp only [Option.some_bind]
    rw [List.find?_map, Option.isSome_map']
    rfl

theorem filter_avals_run (d : Ymd) (db : DB) :
    (runSessionExpiryForDate noFaults d db).db.avals.filter
        (fun a => a.dataAplicacao = d)
      = (db.avals.filter (fun a => a.dataAplicacao = d)).map (expireOnDate d) := by
  rw [run_noFaults]
  show (db.avals.map (expireOnDate d)).filter (fun a => a.dataAplicacao = d) = _
  rw [List.filter_map]
  have hp : (fun a => decide (a.dataAplicacao = d)) ∘ expireOnDate d
      = fun a => decide (a.dataAplicacao = d) := by
    funext a
    show decide ((expireOnDate d a).dataAplicacao = d) = decide (a.dataAplicacao = d)
    rw [expireOnDate_dataAplicacao]
  rw [hp]

theorem qual_count_invariant (d : Ymd) (db : DB) :
    ((findAvalsByDate (runSessionExpiryForDate noFaults d db).db d).filter
        (fun v => v.leito.isSome)).length
      = ((findAvalsByDate db d).filter (fun v => v.leito.isSome)).length := by
  rw [length_filter_findAvals, length_filter_findAvals, filter_avals_run,
    List.countP_map]
  have hfun :
      ((fun a =>
          ((resolveAval (runSessionExpiryForDate noFaults d db).db a).leito).isSome)
        ∘ expireOnDate d)
      = fun a => ((resolveAval db a).leito).isSome := by
    funext a
    exact resolveAval_leito_isSome_run d db a
  rw [hfun]

theorem cancelStep_of_armed_ne (s : SchedState)
    (h : s.armed ≠ some firstHandle) : cancelStep s = s := by
  unfold cancelStep
  rw [if_neg h]

theorem fireStep_iterate :
    ∀ n : Nat, 1 ≤ n →
      fireStep^[n] schedStart
        = { armed := some n, nextId := n + 1, fired := n } := by
  intro n
  induction n with
  | zero => intro h; exact absurd h (by decide)
  | succ k ih =>
    intro _
    rcases Nat.eq_zero_or_pos k with hk | hk
    · subst hk; rfl
    · rw [Function.iterate_succ_apply', ih hk]
      rfl

theorem fireStep_iterate_none (s : SchedState) (h : s.armed = none) :
    ∀ n, fireStep^[n] s = s := by
  intro n
  induction n with
  | zero => rfl
  | succ k ih =>
    rw [Function.iterate_succ_apply]
    have hs : fireStep s = s := by simp [fireStep, h]
    rw [hs, ih]

/-! ## Claim theorems -/

/-- C1: for every assessment whose application date equals the target date
`d`, a fault-free `rollover(d)` creates exactly one `HistoricoOcupacao`
snapshot if the assessment's (resolved) bed association is non-null, and
zero snapshots if the bed association is null: the rows added to the store
are precisely the `filterMap` of the per-assessment snapshot over the
fetched assessments, so their number is the number of fetched assessments
with a bed, and bed-less assessments contribute nothing. -/
theorem C1_one_snapshot_per_bed_assessment (d : Ymd) (db : DB) :
    (runSessionExpiryForDate noFaults d db).db.historicos
        = db.historicos
          ++ (findAvalsByDate db d).filterMap
              (fun v => v.leito.map (mkHistorico d v)) ∧
    (runSessionExpiryForDate noFaults d db).db.historicos.length
        = db.historicos.length
          + ((findAvalsByDate db d).filter (fun v => v.leito.isSome)).length := by
  constructor
  · rw [run_noFaults]
    show db.historicos ++ buildHistoricos d (findAvalsByDate db d) = _
    rw [buildHistoricos_eq_filterMap]
  · rw [run_noFaults]
    show (db.historicos ++ buildHistoricos d (findAvalsByDate db d)).length = _
    rw [List.length_append, length_buildHistoricos]

/-- C2: after a fault-free `rollover(d)`, every bed in the store has status
`PENDENTE`, whatever its previous status (occupied and maintenance statuses
included) and whether or not it had an assessment on `d`: the bulk reset
maps `resetPendente` over the whole `Leito` collection, unfiltered. -/
theorem C2_all_beds_pending (d : Ymd) (db : DB) :
    (runSessionExpiryForDate noFaults d db).db.leitos
        = db.leitos.map resetPendente ∧
    ∀ l ∈ (runSessionExpiryForDate noFaults d db).db.leitos,
      l.status = StatusLeito.PENDENTE := by
  constructor
  · rw [run_noFaults]
  · intro l hl
    rw [run_noFaults] at hl
    rcases List.mem_map.mp hl with ⟨l0, _, rfl⟩
    rfl

/-- Witness for C2 at the concrete store `db0` (beds previously `OCUPADO`
and `MANUT_REPARO`). -/
theorem C2_all_beds_pending_witness :
    (runSessionExpiryForDate noFaults dia0 db0).db.leitos
        = db0.leitos.map resetPendente ∧
    (resetPendente leito0).status = StatusLeito.PENDENTE :=
  ⟨(C2_all_beds_pending dia0 db0).1,
   (C2_all_beds_pending dia0 db0).2 (resetPendente leito0) (by decide)⟩

/-- C3: after a fault-free `rollover(d)`, every assessment dated `d` has
session status `EXPIRADA`, and every assessment dated otherwise is left in
the store entirely unchanged (the bulk update maps `expireOnDate d`, which
only touches rows matching the date). -/
theorem C3_sessions_expired_frame (d : Ymd) (db : DB) :
    (runSessionExpiryForDate noFaults d db).db.avals
        = db.avals.map (expireOnDate d) ∧
    (∀ a ∈ (runSessionExpiryForDate noFaults d db).db.avals,
      a.dataAplicacao = d → a.statusSessao = StatusSessaoAvaliacao.EXPIRADA) ∧
    (∀ a ∈ db.avals, a.dataAplicacao ≠ d →
      a ∈ (runSessionExpiryForDate noFaults d db).db.avals) := by
  refine ⟨?_, ?_, ?_⟩
  · rw [run_noFaults]
  · intro a ha hd
    rw [run_noFaults] at ha
    rcases List.mem_map.mp ha with ⟨a0, _, rfl⟩
    rw [expireOnDate_dataAplicacao] at hd
    simp [expireOnDate, hd]
  · intro a ha hd
    rw [run_noFaults]
    show a ∈ db.avals.map (expireOnDate d)
    refine List.mem_map.mpr ⟨a, ha, ?_⟩
    simp [expireOnDate, hd]

/-- Witness for C3 at `db0`: the day's assessment is expired; `aval2`
(dated `dia1` ≠ `dia0`) survives unchanged. -/
theorem C3_sessions_expired_frame_witness :
    (runSessionExpiryForDate noFaults dia0 db0).db.avals
        = db0.avals.map (expireOnDate dia0) ∧
    (expireOnDate dia0 aval0).statusSessao = StatusSessaoAvaliacao.EXPIRADA ∧
    aval2 ∈ (runSessionExpiryForDate noFaults dia0 db0).db.avals :=
  ⟨(C3_sessions_expired_frame dia0 db0).1,
   (C3_sessions_expired_frame dia0 db0).2.1 (expireOnDate dia0 aval0)
     (by decide) (by decide),
   (C3_sessions_expired_frame dia0 db0).2.2 aval2 (by decide) (by decide)⟩

/-- C4 counterexample: the claim says every created snapshot's window ends
at local midnight of the following day; on the concrete store `db0` with
target date 2024-05-10, the three created snapshots all have
`fim = endOfDayUTC dia0` (the last millisecond of the local day,
23:59:59.999), which is NOT `startOfDayUTC dia1` (local midnight of
2024-05-11): it falls exactly 1 millisecond short. -/
theorem C4_counterexample :
    (runSessionExpiryForDate noFaults dia0 db0).db.historicos.map (fun h => h.fim)
        = [endOfDayUTC dia0, endOfDayUTC dia0, endOfDayUTC dia0] ∧
    endOfDayUTC dia0 ≠ startOfDayUTC dia1 ∧
    startOfDayUTC dia1 - endOfDayUTC dia0 = 1 := by
  refine ⟨by decide, by decide, by decide⟩

/-- C4 (amended): every snapshot created by a fault-free `rollover(d)` has
`inicio` equal to local midnight of `d` in the fixed reference timezone
(as a UTC instant) and `fim` equal to the LAST MILLISECOND of day `d`
(23:59:59.999 local, i.e. one millisecond before the following local
midnight), both a function of `d` alone — identical for every snapshot of
the run, regardless of which assessment produced it. -/
theorem C4_window_function_of_date (d : Ymd) (db : DB) (h : HistoricoOcupacao)
    (hh : h ∈ buildHistoricos d (findAvalsByDate db d)) :
    (runSessionExpiryForDate noFaults d db).db.historicos
        = db.historicos ++ buildHistoricos d (findAvalsByDate db d) ∧
    h.inicio = startOfDayUTC d ∧
    h.fim = endOfDayUTC d ∧
    h.fim = h.inicio + msPerDay - 1 := by
  rcases mem_buildHistoricos d _ h hh with ⟨v, l, _, _, rfl⟩
  refine ⟨?_, rfl, rfl, rfl⟩
  rw [run_noFaults]

/-- Witness for the amended C4 at `db0` and 2024-05-10. -/
theorem C4_window_function_of_date_witness :
    mkHistorico dia0 (resolveAval db0 aval0) leito0
        ∈ buildHistoricos dia0 (findAvalsByDate db0 dia0) ∧
    ((runSessionExpiryForDate noFaults dia0 db0).db.historicos
        = db0.historicos ++ buildHistoricos dia0 (findAvalsByDate db0 dia0) ∧
      (mkHistorico dia0 (resolveAval db0 aval0) leito0).inicio
          = startOfDayUTC dia0 ∧
      (mkHistorico dia0 (resolveAval db0 aval0) leito0).fim
          = endOfDayUTC dia0 ∧
      (mkHistorico dia0 (resolveAval db0 aval0) leito0).fim
          = (mkHistorico dia0 (resolveAval db0 aval0) leito0).inicio
            + msPerDay - 1) :=
  ⟨by decide, C4_window_function_of_date dia0 db0 _ (by decide)⟩

/-- C5: whenever the rollover body fails with a data-store error, both
entry points log exactly one warning; the manual entry point re-throws the
error to its caller, while the scheduled entry point swallows it and never
throws out of the scheduling loop. -/
theorem C5_error_asymmetry (f : Faults) (d : Ymd) (db : DB) (e : DBError)
    (h : (manualAttempt f d db).2 = some e) :
    (runSessionExpiryForDate f d db).warnings = 1 ∧
    (runSessionExpiryForDate f d db).thrown = some e ∧
    (schedRunForDate f d db).warnings = 1 ∧
    (schedRunForDate f d db).thrown = none := by
  have hm : manualAttempt f d db = ((manualAttempt f d db).1, some e) := by
    rw [← h]
  have hru : runSessionExpiryForDate f d db
      = { db := (manualAttempt f d db).1, warnings := 1, thrown := some e } := by
    unfold runSessionExpiryForDate
    rw [hm]
  have hrs : schedRunForDate f d db
      = { db := (manualAttempt f d db).1, warnings := 1, thrown := none } := by
    unfold schedRunForDate
    rw [schedAttempt_eq_manualAttempt, hm]
  rw [hru, hrs]
  exact ⟨rfl, rfl, rfl, rfl⟩

/-- Witness for C5 with a failing fetch on the concrete store. -/
theorem C5_error_asymmetry_witness :
    (manualAttempt fetchFault dia0 db0).2 = some DBError.fetchFailed ∧
    ((runSessionExpiryForDate fetchFault dia0 db0).warnings = 1 ∧
      (runSessionExpiryForDate fetchFault dia0 db0).thrown
          = some DBError.fetchFailed ∧
      (schedRunForDate fetchFault dia0 db0).warnings = 1 ∧
      (schedRunForDate fetchFault dia0 db0).thrown = none) :=
  ⟨by decide,
   C5_error_asymmetry fetchFault dia0 db0 DBError.fetchFailed (by decide)⟩

/-- C6: if the initial fetch fails, the rollover aborts before performing
any write — the resulting store (snapshots, beds and assessments alike) is
exactly the input store, for either entry point. -/
theorem C6_fetch_failure_aborts (f : Faults) (d : Ymd) (db : DB)
    (h : f.fetchFails = true) :
    (runSessionExpiryForDate f d db).db = db ∧
    (schedRunForDate f d db).db = db := by
  have hm : manualAttempt f d db = (db, some DBError.fetchFailed) := by
    simp [manualAttempt, h]
  constructor
  · unfold runSessionExpiryForDate
    rw [hm]
  · unfold schedRunForDate
    rw [schedAttempt_eq_manualAttempt, hm]

/-- Witness for C6 with a failing fetch on the concrete store. -/
theorem C6_fetch_failure_aborts_witness :
    fetchFault.fetchFails = true ∧
    ((runSessionExpiryForDate fetchFault dia0 db0).db = db0 ∧
      (schedRunForDate fetchFault dia0 db0).db = db0) :=
  ⟨rfl, C6_fetch_failure_aborts fetchFault dia0 db0 rfl⟩

/-- C7: the rollover is not idempotent: running it twice (fault-free) on
the same date appends a second batch of snapshots — the first run's rows
are all still there as a prefix, the second run appends one more row per
assessment of `d` with a bed, so the store ends with twice the qualifying
count added, not once. -/
theorem C7_rerun_duplicates (d : Ymd) (db : DB) :
    (runSessionExpiryForDate noFaults d
        (runSessionExpiryForDate noFaults d db).db).db.historicos
      = (runSessionExpiryForDate noFaults d db).db.historicos
        ++ buildHistoricos d
            (findAvalsByDate (runSessionExpiryForDate noFaults d db).db d) ∧
    (buildHistoricos d
        (findAvalsByDate (runSessionExpiryForDate noFaults d db).db d)).length
      = ((findAvalsByDate db d).filter (fun v => v.leito.isSome)).length ∧
    (runSessionExpiryForDate noFaults d
        (runSessionExpiryForDate noFaults d db).db).db.historicos.length
      = db.historicos.length
        + 2 * ((findAvalsByDate db d).filter (fun v => v.leito.isSome)).length := by
  refine ⟨?_, ?_, ?_⟩
  · rw [run_noFaults d (runSessionExpiryForDate noFaults d db).db]
  · rw [length_buildHistoricos]
    exact qual_count_invariant d db
  · rw [run_noFaults d (runSessionExpiryForDate noFaults d db).db]
    show ((runSessionExpiryForDate noFaults d db).db.historicos
        ++ buildHistoricos d
            (findAvalsByDate (runSessionExpiryForDate noFaults d db).db d)).length
      = _
    rw [List.length_append, length_buildHistoricos, qual_count_invariant]
    rw [run_noFaults d db]
    show (db.historicos ++ buildHistoricos d (findAvalsByDate db d)).length
        + ((findAvalsByDate db d).filter (fun v => v.leito.isSome)).length = _
    rw [List.length_append, length_buildHistoricos]
    omega

/-- C8: the manual entry point and the scheduler's inner `runForDate` are
behaviourally equivalent on the data store: for every fault pattern, date
and store, their try-bodies are literally the same state transformer, they
leave the same store and log the same warnings; they differ only in error
propagation — the scheduled run never throws, the manual run re-throws
exactly the body's error. -/
theorem C8_entry_points_equivalent (f : Faults) (d : Ymd) (db : DB) :
    schedAttempt f d db = manualAttempt f d db ∧
    (schedRunForDate f d db).db = (runSessionExpiryForDate f d db).db ∧
    (schedRunForDate f d db).warnings
        = (runSessionExpiryForDate f d db).warnings ∧
    (schedRunForDate f d db).thrown = none ∧
    (runSessionExpiryForDate f d db).thrown = (manualAttempt f d db).2 := by
  refine ⟨schedAttempt_eq_manualAttempt f d db, ?_⟩
  unfold schedRunForDate runSessionExpiryForDate
  rw [schedAttempt_eq_manualAttempt]
  cases hm : manualAttempt f d db with
  | mk db1 e =>
    cases e with
    | none => exact ⟨rfl, rfl, rfl, rfl⟩
    | some e0 => exact ⟨rfl, rfl, rfl, rfl⟩

/-- C9: the cancellation closure returned by `scheduleSessionExpiry` clears
only the first armed timer: called before the first midnight fire it
disarms the loop and no rollover ever runs; called after `n ≥ 1` fires it
is a no-op (the armed timer is a fresh handle, not the captured first one),
so the loop keeps firing — after `n` fires the callback has run `n`
times. -/
theorem C9_cancel_clears_only_first_timer :
    (cancelStep schedStart).armed = none ∧
    (∀ n, (fireStep^[n] (cancelStep schedStart)).fired = 0) ∧
    (∀ n, 1 ≤ n →
      cancelStep (fireStep^[n] schedStart) = fireStep^[n] schedStart ∧
      (fireStep^[n] schedStart).fired = n) := by
  refine ⟨rfl, ?_, ?_⟩
  · intro n
    rw [fireStep_iterate_none (cancelStep schedStart) rfl]
    rfl
  · intro n hn
    rw [fireStep_iterate n hn]
    constructor
    · apply cancelStep_of_armed_ne
      show some n ≠ some firstHandle
      have : n ≠ firstHandle := by
        unfold firstHandle
        omega
      simp [this]
    · rfl

/-- Witness for C9: cancelling immediately prevents all fires; after two
fires the cancel handle is a no-op and the count keeps growing. -/
theorem C9_cancel_clears_only_first_timer_witness :
    (cancelStep schedStart).armed = none ∧
    (fireStep^[5] (cancelStep schedStart)).fired = 0 ∧
    cancelStep (fireStep^[2] schedStart) = fireStep^[2] schedStart ∧
    (fireStep^[2] schedStart).fired = 2 :=
  ⟨C9_cancel_clears_only_first_timer.1,
   C9_cancel_clears_only_first_timer.2.1 5,
   (C9_cancel_clears_only_first_timer.2.2 2 (by decide)).1,
   (C9_cancel_clears_only_first_timer.2.2 2 (by decide)).2⟩

/-- C10: an assessment that has a bed but a missing unit or author still
gets its snapshot: the snapshot is created (it is among the rows added by
the fault-free run), with `unidadeId`/`hospitalId` null when the unit is
missing, `hospitalId` null when the unit's hospital is missing,
`autorId`/`autorNome` null when the author is missing, and each missing
scoring field recorded as null — never a skip and never a failure. -/
theorem C10_null_relations_snapshot (d : Ymd) (db : DB) (v : AvalResolved)
    (l : Leito) (hv : v ∈ findAvalsByDate db d) (hl : v.leito = some l) :
    mkHistorico d v l ∈ (runSessionExpiryForDate noFaults d db).db.historicos ∧
    (v.unidade = none → (mkHistorico d v l).unidadeId = none
      ∧ (mkHistorico d v l).hospitalId = none) ∧
    (∀ u, v.unidade = some u → u.hospital = none →
      (mkHistorico d v l).hospitalId = none) ∧
    (v.autor = none → (mkHistorico d v l).autorId = none
      ∧ (mkHistorico d v l).autorNome = none) ∧
    (v.aval.scp = none → (mkHistorico d v l).scp = none) ∧
    (v.aval.totalPontos = none → (mkHistorico d v l).totalPontos = none) ∧
    (v.aval.classificacao = none → (mkHistorico d v l).classificacao = none) ∧
    (v.aval.itens = none → (mkHistorico d v l).itens = none) := by
  refine ⟨?_, ?_, ?_, ?_, ?_, ?_, ?_, ?_⟩
  · rw [run_noFaults]
    show mkHistorico d v l
        ∈ db.historicos ++ buildHistoricos d (findAvalsByDate db d)
    exact List.mem_append_right _ (buildHistoricos_mem d v l hl _ hv)
  · intro hu
    constructor
    · simp [mkHistorico, hu]
    · simp [mkHistorico, hu]
  · intro u hu hh
    simp [mkHistorico, hu, hh]
  · intro ha
    constructor
    · simp [mkHistorico, ha]
    · simp [mkHistorico, ha]
  · intro hs
    simp [mkHistorico, hs]
  · intro hs
    simp [mkHistorico, hs]
  · intro hs
    simp [mkHistorico, hs]
  · intro hs
    simp [mkHistorico, hs]

/-- Witness for C10 at `db0`: `avalNulls` (bed, everything else null) and
`avalNoHosp` (bed and a unit whose hospital reference is null). -/
theorem C10_null_relations_snapshot_witness :
    resolveAval db0 avalNulls ∈ findAvalsByDate db0 dia0 ∧
    (resolveAval db0 avalNulls).leito = some leito1 ∧
    mkHistorico dia0 (resolveAval db0 avalNulls) leito1
        ∈ (runSessionExpiryForDate noFaults dia0 db0).db.historicos ∧
    (mkHistorico dia0 (resolveAval db0 avalNulls) leito1).unidadeId = none ∧
    (mkHistorico dia0 (resolveAval db0 avalNulls) leito1).hospitalId = none ∧
    (mkHistorico dia0 (resolveAval db0 avalNulls) leito1).autorId = none ∧
    (mkHistorico dia0 (resolveAval db0 avalNulls) leito1).autorNome = none ∧
    (mkHistorico dia0 (resolveAval db0 avalNulls) leito1).scp = none ∧
    (mkHistorico dia0 (resolveAval db0 avalNoHosp) leito0).hospitalId = none :=
  ⟨by decide, by decide,
   (C10_null_relations_snapshot dia0 db0 (resolveAval db0 avalNulls) leito1
      (by decide) (by decide)).1,
   ((C10_null_relations_snapshot dia0 db0 (resolveAval db0 avalNulls) leito1
      (by decide) (by decide)).2.1 (by decide)).1,
   ((C10_null_relations_snapshot dia0 db0 (resolveAval db0 avalNulls) leito1
      (by decide) (by decide)).2.1 (by decide)).2,
   ((C10_null_relations_snapshot dia0 db0 (resolveAval db0 avalNulls) leito1
      (by decide) (by decide)).2.2.2.1 (by decide)).1,
   ((C10_null_relations_snapshot dia0 db0 (resolveAval db0 avalNulls) leito1
      (by decide) (by decide)).2.2.2.1 (by decide)).2,
   (C10_null_relations_snapshot dia0 db0 (resolveAval db0 avalNulls) leito1
      (by decide) (by decide)).2.2.2.2.1 (by decide),
   (C10_null_relations_snapshot dia0 db0 (resolveAval db0 avalNoHosp) leito0
      (by decide) (by decide)).2.2.1 (UnidadeResolved.mk "U2" none)
      (by decide) (by decide)⟩

end SessionExpiry
